import Mathlib

/-!
Formal model of the perfect-vision module's vision core (`scripts/vision.js`):
the sight-radius resolver spliced around `PointSource.prototype.initialize`
(lines 294-451), the vision-mesh visibility decision in
`PointSource.prototype.drawLight` (line 521), and the FOV polygon cache
`computeFov` (lines 41-84).

Modelling conventions:
* JS numbers in the resolver are modelled as `ℚ`.  The single divergence is
  division by zero: JS produces `Infinity`/`NaN` there while `ℚ` yields `0`.
  Theorems touching a zero divisor carry hypotheses that keep the model and
  the JS semantics in agreement (noted at each definition involved).
* `getFlag` results that may be absent (`undefined`) or fail `parseFloat`
  (`NaN`) are modelled as `Option` values, `none` meaning absent/NaN.
* The rule tags and preset names are kept as strings, as in the source,
  so that arbitrary (also unknown) flag values can be expressed.
* The geometric part (`computeFov`) is modelled over `ℝ`, since
  `Math.hypot` takes real square roots.
-/

namespace PerfectVision

instance {ε α : Type} [DecidableEq ε] [DecidableEq α] : DecidableEq (Except ε α) :=
  fun a b =>
    match a, b with
    | Except.ok x, Except.ok y =>
      if h : x = y then isTrue (by rw [h])
      else isFalse (fun hh => h (Except.ok.inj hh))
    | Except.error x, Except.error y =>
      if h : x = y then isTrue (by rw [h])
      else isFalse (fun hh => h (Except.error.inj hh))
    | Except.ok _, Except.error _ => isFalse (fun hh => Except.noConfusion hh)
    | Except.error _, Except.ok _ => isFalse (fun hh => Except.noConfusion hh)

/-! ### String constants used by vision.js -/

def tagBright : String := "bright"

def tagBrightMono : String := "bright_mono"

def tagDim : String := "dim"

def tagDimMono : String := "dim_mono"

def tagScene : String := "scene"

def tagSceneMono : String := "scene_mono"

def tagDarkness : String := "darkness"

def nameCustom : String := "custom"

def nameDefault : String := "default"

def nameFvtt : String := "fvtt"

def nameDnd35e : String := "dnd35e"

def nameDnd5e : String := "dnd5e"

def namePf1e : String := "pf1e"

def namePf2e : String := "pf2e"

def stringEmpty : String := ""

def presetUndefinedError : String := "TypeError: cannot read property of undefined"

/-! ### Data model of the host state read by the resolver -/

/-- The token fields read by the wrapper: pixel width `w` and height `h`,
and the raw sight distances `token.data.dimSight` / `token.data.brightSight`
(in scene distance units). -/
structure TokenData where
  w : ℚ
  h : ℚ
  dimSight : ℚ
  brightSight : ℚ
deriving DecidableEq, Repr

/-- The fields of `canvas.dimensions` read by the resolver: grid pixel `size`,
scene unit `distance`, and the maximal radius `maxR`
(`d.maxR ?? Math.hypot(d.sceneWidth, d.sceneHeight)`, taken as an input). -/
structure SceneDims where
  size : ℚ
  distance : ℚ
  maxR : ℚ
deriving DecidableEq, Repr

/-- The perfect-vision flags on the token document.  `none` models an absent
flag (`getFlag` returning `undefined`) and, for `sightLimit`, also a value
whose `parseFloat` is `NaN`. -/
structure TokenFlags where
  visionRules : Option String
  dimVisionInDarkness : Option String
  dimVisionInDimLight : Option String
  brightVisionInDarkness : Option String
  brightVisionInDimLight : Option String
  sightLimit : Option ℚ
deriving DecidableEq, Repr

/-- The perfect-vision flags on the scene used by the resolver. -/
structure SceneFlags where
  sightLimit : Option ℚ
deriving DecidableEq, Repr

/-- The world-level settings (`game.settings.get("perfect-vision", ...)`).
These are registered with defaults, hence never absent. -/
structure WorldSettings where
  visionRules : String
  dimVisionInDarkness : String
  dimVisionInDimLight : String
  brightVisionInDarkness : String
  brightVisionInDimLight : String
deriving DecidableEq, Repr

/-- A fully resolved assignment of the four vision-rule branches. -/
structure RuleSet where
  dimVisionInDarkness : String
  dimVisionInDimLight : String
  brightVisionInDarkness : String
  brightVisionInDimLight : String
deriving DecidableEq, Repr

/-- One entry of the preset table. -/
structure Preset where
  dimVisionInDarkness : String
  dimVisionInDimLight : String
  brightVisionInDarkness : String
  brightVisionInDimLight : String
deriving DecidableEq, Repr

/-- Modelled from the spec: the preset table of `presets.js` is not part of
the sources at hand; its key set is fixed by the `visionRules` setting
choices registered in `vision.js` (lines 173-180, plus the `"default"` alias
used at line 181), and the branch values follow the spec/README descriptions
of the presets.  Only the key set and the `"fvtt"` entry matter for the
claims below. -/
def presets (k : String) : Option Preset :=
  if k = nameFvtt ∨ k = nameDefault then
    some ⟨tagDim, tagDim, tagBright, tagBright⟩
  else if k = nameDnd35e then
    some ⟨tagDarkness, tagDim, tagBrightMono, tagDim⟩
  else if k = nameDnd5e then
    some ⟨tagDimMono, tagBright, tagBright, tagBright⟩
  else if k = namePf1e then
    some ⟨tagDarkness, tagDim, tagBrightMono, tagDim⟩
  else if k = namePf2e then
    some ⟨tagDarkness, tagBright, tagBrightMono, tagBright⟩
  else
    none

/-- JS `a || b` for an optional string `a`: an absent or empty (falsy)
string falls through to `b`. -/
def jsOrS (a : Option String) (b : String) : String :=
  match a with
  | some s => if s = stringEmpty then b else s
  | none => b

/-! ### JS Math primitives

`Math.min`, `Math.max` and `Math.abs` on rationals, written as explicit
conditionals so that concrete runs reduce by `decide`.  They agree with
Mathlib's `min`/`max`/`abs` (bridge lemmas below). -/

/-- `Math.min(a, b)`. -/
def jsMin (a b : ℚ) : ℚ := if a ≤ b then a else b

/-- `Math.max(a, b)`. -/
def jsMax (a b : ℚ) : ℚ := if a ≤ b then b else a

/-- `Math.abs(a)`. -/
def jsAbs (a : ℚ) : ℚ := if a < 0 then -a else a

/-! ### getLightRadius (vision.js lines 294-299) -/

/-- `getLightRadius(token, units)`:
`if (units === 0) return 0;`
`return (((|units| / d.distance) * d.size) + token.w / 2) * Math.sign(units)`.
Over `ℚ`, `|units| / 0 = 0` where JS yields `Infinity`; theorems involving a
zero `distance` are stated so that this difference does not matter. -/
def getLightRadius (tok : TokenData) (d : SceneDims) (units : ℚ) : ℚ :=
  if units = 0 then 0
  else (jsAbs units / d.distance * d.size + tok.w / 2) * (if units < 0 then -1 else 1)

/-- `minR = Math.min(token.w, token.h) * 0.5` (line 316). -/
def minRadius (tok : TokenData) : ℚ :=
  jsMin tok.w tok.h * (1 / 2)

/-! ### Vision-rule resolution (vision.js lines 331-354) -/

/-- Lines 331-349: select where the four rule branches come from.  A token
flag `"custom"` takes the token's four branch flags; otherwise `"default"`
(or an absent/empty flag) is replaced by the world `visionRules` setting,
and any remaining non-`"custom"` name is looked up in the preset table.
A name missing from the table makes `presets[visionRules].dimVisionInDarkness`
throw a `TypeError`, modelled as `Except.error`. -/
def lookupPresetRules (tf : TokenFlags) (ws : WorldSettings) :
    Except String (Option String × Option String × Option String × Option String) :=
  let vr := jsOrS tf.visionRules nameDefault
  if vr = nameCustom then
    Except.ok (tf.dimVisionInDarkness, tf.dimVisionInDimLight,
      tf.brightVisionInDarkness, tf.brightVisionInDimLight)
  else
    let vr2 := if vr = nameDefault then ws.visionRules else vr
    if vr2 = nameCustom then
      Except.ok (none, none, none, none)
    else
      match presets vr2 with
      | some p => Except.ok (some p.dimVisionInDarkness, some p.dimVisionInDimLight,
          some p.brightVisionInDarkness, some p.brightVisionInDimLight)
      | none => Except.error presetUndefinedError

/-- Lines 351-354: each still-unset branch falls through (`||`) to the
corresponding world setting. -/
def resolveRules (tf : TokenFlags) (ws : WorldSettings) : Except String RuleSet :=
  (lookupPresetRules tf ws).map fun q =>
    ⟨jsOrS q.1 ws.dimVisionInDarkness,
     jsOrS q.2.1 ws.dimVisionInDimLight,
     jsOrS q.2.2.1 ws.brightVisionInDarkness,
     jsOrS q.2.2.2 ws.brightVisionInDimLight⟩

/-- The name the `visionRules` flag chain resolves to before the preset
lookup (the value of the local `visionRules` at line 343). -/
def resolvedRuleName (tf : TokenFlags) (ws : WorldSettings) : String :=
  let vr := jsOrS tf.visionRules nameDefault
  if vr = nameCustom then nameCustom
  else if vr = nameDefault then ws.visionRules
  else vr

/-! ### Radius computation (vision.js lines 356-417, 425) -/

/-- Line 359 / 364 / 367: `dim = getLightRadius(token, token.data.dimSight)`,
then `dim = Math.abs(dim)`, then `dim = Math.min(dim, maxR)`. -/
def dimClamped (tok : TokenData) (d : SceneDims) : ℚ :=
  jsMin (jsAbs (getLightRadius tok d tok.dimSight)) d.maxR

/-- Line 360 / 365 / 368, the `bright` analogue of `dimClamped`. -/
def brightClamped (tok : TokenData) (d : SceneDims) : ℚ :=
  jsMin (jsAbs (getLightRadius tok d tok.brightSight)) d.maxR

/-- Line 362: `sign = Math.min(dim, bright) < 0 ? -1 : +1` (computed on the
unclamped radii). -/
def sgnOf (tok : TokenData) (d : SceneDims) : ℚ :=
  if jsMin (getLightRadius tok d tok.dimSight) (getLightRadius tok d tok.brightSight) < 0
  then -1 else 1

/-- Lines 370-374: `parseFloat` of the token `sightLimit` flag, falling back
to the scene flag when `NaN` (`none`). -/
def sightLimitFlag (tf : TokenFlags) (sf : SceneFlags) : Option ℚ :=
  match tf.sightLimit with
  | some v => some v
  | none => sf.sightLimit

/-- Line 377: `sightLimit = Math.max(getLightRadius(token, Math.abs(sightLimit)), minR)`
whenever the flag chain produced a number. -/
def sightLimitPxOf (tok : TokenData) (d : SceneDims) (tf : TokenFlags) (sf : SceneFlags) :
    Option ℚ :=
  (sightLimitFlag tf sf).map fun v => jsMax (getLightRadius tok d (jsAbs v)) (minRadius tok)

/-- Lines 378: `dim = Math.min(dim, sightLimit)` when the limit is present. -/
def dimFinal (tok : TokenData) (d : SceneDims) (tf : TokenFlags) (sf : SceneFlags) : ℚ :=
  match sightLimitPxOf tok d tf sf with
  | some sl => jsMin (dimClamped tok d) sl
  | none => dimClamped tok d

/-- Line 379, the `bright` analogue of `dimFinal`. -/
def brightFinal (tok : TokenData) (d : SceneDims) (tf : TokenFlags) (sf : SceneFlags) : ℚ :=
  match sightLimitPxOf tok d tf sf with
  | some sl => jsMin (brightClamped tok d) sl
  | none => brightClamped tok d

/-- Lines 382-385: the `data.dim` value first written (before the
minimum-radius forcing of line 417). -/
def dataDimPreOf (r : RuleSet) (tok : TokenData) (d : SceneDims)
    (tf : TokenFlags) (sf : SceneFlags) : ℚ :=
  sgnOf tok d * jsMax
    (if r.dimVisionInDarkness = tagDim ∨ r.dimVisionInDarkness = tagDimMono
      then dimFinal tok d tf sf else 0)
    (if r.brightVisionInDarkness = tagDim ∨ r.brightVisionInDarkness = tagDimMono
      then brightFinal tok d tf sf else 0)

/-- Lines 386-389: the `data.bright` value written. -/
def dataBrightOf (r : RuleSet) (tok : TokenData) (d : SceneDims)
    (tf : TokenFlags) (sf : SceneFlags) : ℚ :=
  sgnOf tok d * jsMax
    (if r.dimVisionInDarkness = tagBright ∨ r.dimVisionInDarkness = tagBrightMono
      then dimFinal tok d tf sf else 0)
    (if r.brightVisionInDarkness = tagBright ∨ r.brightVisionInDarkness = tagBrightMono
      then brightFinal tok d tf sf else 0)

/-- Lines 391-398: the local `visionRadius`, the maximum over all six
branch/tag combinations that grant any lit appearance. -/
def visionRadiusOf (r : RuleSet) (tok : TokenData) (d : SceneDims)
    (tf : TokenFlags) (sf : SceneFlags) : ℚ :=
  jsMax (jsMax (jsMax (jsMax (jsMax
    (if r.dimVisionInDarkness = tagScene ∨ r.dimVisionInDarkness = tagSceneMono
      then dimFinal tok d tf sf else 0)
    (if r.dimVisionInDarkness = tagDim ∨ r.dimVisionInDarkness = tagDimMono
      then dimFinal tok d tf sf else 0))
    (if r.dimVisionInDarkness = tagBright ∨ r.dimVisionInDarkness = tagBrightMono
      then dimFinal tok d tf sf else 0))
    (if r.brightVisionInDarkness = tagScene ∨ r.brightVisionInDarkness = tagSceneMono
      then brightFinal tok d tf sf else 0))
    (if r.brightVisionInDarkness = tagDim ∨ r.brightVisionInDarkness = tagDimMono
      then brightFinal tok d tf sf else 0))
    (if r.brightVisionInDarkness = tagBright ∨ r.brightVisionInDarkness = tagBrightMono
      then brightFinal tok d tf sf else 0)

/-- Lines 399-406: the local `visionRadiusColor` (non-mono branches only). -/
def visionRadiusColorOf (r : RuleSet) (tok : TokenData) (d : SceneDims)
    (tf : TokenFlags) (sf : SceneFlags) : ℚ :=
  jsMax (jsMax (jsMax (jsMax (jsMax
    (if r.dimVisionInDarkness = tagScene then dimFinal tok d tf sf else 0)
    (if r.dimVisionInDarkness = tagDim then dimFinal tok d tf sf else 0))
    (if r.dimVisionInDarkness = tagBright then dimFinal tok d tf sf else 0))
    (if r.brightVisionInDarkness = tagScene then brightFinal tok d tf sf else 0))
    (if r.brightVisionInDarkness = tagDim then brightFinal tok d tf sf else 0))
    (if r.brightVisionInDarkness = tagBright then brightFinal tok d tf sf else 0)

/-- Lines 407-410: the local `visionRadiusDimToBright`. -/
def visionRadiusDimToBrightOf (r : RuleSet) (tok : TokenData) (d : SceneDims)
    (tf : TokenFlags) (sf : SceneFlags) : ℚ :=
  jsMax
    (if r.dimVisionInDimLight = tagBright then dimFinal tok d tf sf else 0)
    (if r.brightVisionInDimLight = tagBright then brightFinal tok d tf sf else 0)

/-- Line 415: `this_.radius = Math.max(Math.abs(data.dim), Math.abs(data.bright))`,
computed before the forcing of line 417. -/
def storedRadiusOf (r : RuleSet) (tok : TokenData) (d : SceneDims)
    (tf : TokenFlags) (sf : SceneFlags) : ℚ :=
  jsMax (jsAbs (dataDimPreOf r tok d tf sf)) (jsAbs (dataBrightOf r tok d tf sf))

/-- Line 417: `data.dim = data.dim === 0 && data.bright === 0 ? minR : data.dim`. -/
def dataDimOf (r : RuleSet) (tok : TokenData) (d : SceneDims)
    (tf : TokenFlags) (sf : SceneFlags) : ℚ :=
  if dataDimPreOf r tok d tf sf = 0 ∧ dataBrightOf r tok d tf sf = 0
  then minRadius tok else dataDimPreOf r tok d tf sf

/-- The values the wrapper derives for one sight source. -/
structure SightOutput where
  rules : RuleSet
  dim : ℚ
  bright : ℚ
  sightLimitPx : Option ℚ
  dataDimPre : ℚ
  dataBright : ℚ
  visionRadius : ℚ
  visionRadiusColor : ℚ
  visionRadiusDimToBright : ℚ
  radius : ℚ
  dataDim : ℚ
  fovRadius : ℚ
deriving DecidableEq, Repr

/-- The resolver body once the rules are resolved: all derived values of the
`PointSource.prototype.initialize` wrapper for a sight source.  `fovRadius`
is the radius the wrapper passes to `computeFov` for the main FOV at line
425, `Math.max(visionRadius, minR)`. -/
def initializeSightCore (r : RuleSet) (tok : TokenData) (d : SceneDims)
    (tf : TokenFlags) (sf : SceneFlags) : SightOutput :=
  { rules := r
    dim := dimFinal tok d tf sf
    bright := brightFinal tok d tf sf
    sightLimitPx := sightLimitPxOf tok d tf sf
    dataDimPre := dataDimPreOf r tok d tf sf
    dataBright := dataBrightOf r tok d tf sf
    visionRadius := visionRadiusOf r tok d tf sf
    visionRadiusColor := visionRadiusColorOf r tok d tf sf
    visionRadiusDimToBright := visionRadiusDimToBrightOf r tok d tf sf
    radius := storedRadiusOf r tok d tf sf
    dataDim := dataDimOf r tok d tf sf
    fovRadius := jsMax (visionRadiusOf r tok d tf sf) (minRadius tok) }

/-- The `PointSource.prototype.initialize` wrapper for a sight source
(vision.js lines 301-451): resolve the rule set, then derive every radius.
A `TypeError` thrown by the preset lookup propagates to the caller. -/
def initializeSight (tok : TokenData) (d : SceneDims) (tf : TokenFlags)
    (sf : SceneFlags) (ws : WorldSettings) : Except String SightOutput :=
  (resolveRules tf ws).map fun r => initializeSightCore r tok d tf sf

/-- Line 521 of `PointSource.prototype.drawLight`:
`c.light.visible = sight && this_.radius > 0`. -/
def visionMeshVisible (sightEnabled : Bool) (radius : ℚ) : Bool :=
  sightEnabled && decide (0 < radius)

/-! ### computeFov (vision.js lines 41-84)

The FOV polygon derivation works on real coordinates (`Math.hypot` takes
square roots), so this part of the model lives over `ℝ`.  A polygon is its
list of vertices (the source builds `new PIXI.Polygon(...fovPoints)` from
the vertex list; the pre-0.8 `SourcePolygon` branch wraps the same list). -/

/-- A 2D point. -/
structure Pt where
  x : ℝ
  y : ℝ

/-- The fields of the source read by `computeFov`: position, own configured
radius, and the vertices of the unlimited line-of-sight polygon
(`source.los.points`, a flat coordinate array read in (x, y) pairs at lines
63-64, modelled directly as a point list). -/
structure FovSource where
  x : ℝ
  y : ℝ
  radius : ℝ
  losPoints : List Pt

/-- The fields of `canvas.dimensions` read by `computeFov`. -/
structure CanvasDims where
  width : ℝ
  height : ℝ

/-- The per-pass FOV cache object: the memoized `distance` property and the
polygon entries keyed by radius. -/
structure FovCache where
  distance : Option ℝ
  entries : ℝ → Option (List Pt)

/-- Foundry's `Math.clamped(x, a, b) = Math.min(Math.max(x, a), b)`. -/
def clampedR (x a b : ℝ) : ℝ := min (max x a) b

/-- `Ray(a, b).distance = Math.hypot(b.x - a.x, b.y - a.y)`. -/
noncomputable def rayDistance (a b : Pt) : ℝ :=
  Real.sqrt ((b.x - a.x) ^ 2 + (b.y - a.y) ^ 2)

/-- `Ray(a, b).project(t)`: the point at fraction `t` from `a` towards `b`. -/
def rayProject (a b : Pt) (t : ℝ) : Pt :=
  ⟨a.x + t * (b.x - a.x), a.y + t * (b.y - a.y)⟩

/-- Squared Euclidean distance (used to state "no farther from the origin"
without taking roots). -/
def distSq (a b : Pt) : ℝ :=
  (b.x - a.x) ^ 2 + (b.y - a.y) ^ 2

/-- Lines 49-55: `Math.max(source.radius, Math.hypot(Math.max(x, width - x),
Math.max(y, height - y)))`, the distance bound computed when the cache holds
none. -/
noncomputable def farCorner (d : CanvasDims) (s : FovSource) : ℝ :=
  max s.radius
    (Real.sqrt ((max s.x (d.width - s.x)) ^ 2 + (max s.y (d.height - s.y)) ^ 2))

/-- Lines 42-43: the cache lookup `fovCache && fovCache[radius]`. -/
def cacheLookup (c : Option FovCache) (r : ℝ) : Option (List Pt) :=
  match c with
  | some cc => cc.entries r
  | none => none

/-- Line 49: `fovCache?.distance ?? `(the far-corner bound). -/
noncomputable def cacheDist (d : CanvasDims) (s : FovSource) (c : Option FovCache) : ℝ :=
  match c with
  | some cc => cc.distance.getD (farCorner d s)
  | none => farCorner d s

/-- Lines 57-58: `fovCache.distance = distance` when a cache is present. -/
noncomputable def cacheSetDist (c : Option FovCache) (dist : ℝ) : Option FovCache :=
  match c with
  | some cc => some { cc with distance := some dist }
  | none => none

open Classical in
/-- Lines 80-81: `fovCache[radius] = fov` when a cache is present. -/
noncomputable def cacheStore (c : Option FovCache) (r : ℝ) (fov : List Pt) :
    Option FovCache :=
  match c with
  | some cc => some { cc with entries := fun q => if q = r then some fov else cc.entries q }
  | none => none

/-- The loop body of lines 63-69 for one LOS vertex `p`:
`t0 = Math.clamped(r.distance / distance, 0, 1)`;
keep `p` when `t0 <= limit`, else `r.project(limit / t0)`. -/
noncomputable def clipPoint (s : FovSource) (limit dist : ℝ) (p : Pt) : Pt :=
  let t0 := clampedR (rayDistance ⟨s.x, s.y⟩ p / dist) 0 1
  if t0 ≤ limit then p else rayProject ⟨s.x, s.y⟩ p (limit / t0)

/-- Lines 60-69: `limit = Math.clamped(radius / distance, 0, 1)` and the
vertex loop over the unlimited LOS polygon. -/
noncomputable def clipPoints (s : FovSource) (radius dist : ℝ) : List Pt :=
  let limit := clampedR (radius / dist) 0 1
  s.losPoints.map (clipPoint s limit dist)

/-- `computeFov(source, radius, fovCache)` (lines 41-84): returns the FOV
polygon (vertex list) and the cache as left behind by the call.  A cache hit
returns immediately; otherwise, for positive radius, the distance bound is
memoized and the LOS vertices are radially clipped; the resulting polygon is
stored in the cache before returning. -/
noncomputable def computeFov (d : CanvasDims) (s : FovSource) (radius : ℝ)
    (cache : Option FovCache) : List Pt × Option FovCache :=
  match cacheLookup cache radius with
  | some fov => (fov, cache)
  | none =>
    if 0 < radius then
      let dist := cacheDist d s cache
      let fov := clipPoints s radius dist
      (fov, cacheStore (cacheSetDist cache dist) radius fov)
    else
      (([] : List Pt), cacheStore cache radius ([] : List Pt))

/-! ### Concrete host states used in counterexamples and witnesses -/

/-- A standard scene: 100px grid squares of 5 distance units, large `maxR`. -/
def dStd : SceneDims := ⟨100, 5, 100000⟩

/-- No scene `sightLimit` flag. -/
def sfNone : SceneFlags := ⟨none⟩

/-- World settings: the registered defaults (`"fvtt"` rules). -/
def wsStd : WorldSettings := ⟨nameFvtt, tagDim, tagDim, tagBright, tagBright⟩

/-- Token flags: custom rules with `dimVisionInDarkness = "dim"`,
`brightVisionInDarkness = "darkness"`. -/
def tfCustomDim : TokenFlags :=
  ⟨some nameCustom, some tagDim, some tagDim, some tagDarkness, some tagDim, none⟩

/-- Token flags selecting the `"fvtt"` preset. -/
def tfFvtt : TokenFlags := ⟨some nameFvtt, none, none, none, none, none⟩

/-- No token flags at all. -/
def tfNone : TokenFlags := ⟨none, none, none, none, none, none⟩

/-- A vision-rules flag value that names no preset. -/
def bogusName : String := "bogus"

/-- Token flags with an unknown vision-rules value. -/
def tfBogus : TokenFlags := ⟨some bogusName, none, none, none, none, none⟩

/-- A 100x100px token with no sight at all. -/
def tokZero : TokenData := ⟨100, 100, 0, 0⟩

/-- A 100x100px token with 60-unit dim sight. -/
def tok60 : TokenData := ⟨100, 100, 60, 0⟩

/-- A 100x100px token with the historical negative (unlimited) dim sight. -/
def tokNeg : TokenData := ⟨100, 100, -5, 0⟩

/-- A 100x100px token with 120-unit bright sight. -/
def tok120 : TokenData := ⟨100, 100, 0, 120⟩

/-- Custom Foundry-default-like rules plus a 30-unit `sightLimit` flag. -/
def tf30 : TokenFlags :=
  ⟨some nameCustom, some tagDim, some tagDim, some tagBright, some tagBright, some 30⟩

/-- A tiny 2x2px token (used for the `getLightRadius` claims). -/
def tok9 : TokenData := ⟨2, 2, 0, 0⟩

/-- A scene with grid size 0 (and nonzero unit distance). -/
def d9 : SceneDims := ⟨0, 10, 1000⟩

/-- Placeholder output used by `okD` on the error branch. -/
def defaultOutput : SightOutput :=
  ⟨⟨stringEmpty, stringEmpty, stringEmpty, stringEmpty⟩, 0, 0, none, 0, 0, 0, 0, 0, 0, 0, 0⟩

/-- Extract the output of a successful resolver run. -/
def okD (e : Except String SightOutput) : SightOutput :=
  match e with
  | Except.ok o => o
  | Except.error _ => defaultOutput

/-- Whether an `Except` computation completed without raising. -/
def isOkE {ε α : Type} (e : Except ε α) : Bool :=
  match e with
  | Except.ok _ => true
  | Except.error _ => false

/-- Resolver output for the 60-unit-dim token under custom rules. -/
def out60Custom : SightOutput := okD (initializeSight tok60 dStd tfCustomDim sfNone wsStd)

/-- Output for the zero-sight token under the `"fvtt"` preset. -/
def outZeroFvtt : SightOutput := okD (initializeSight tokZero dStd tfFvtt sfNone wsStd)

/-- Output for the 120-unit-bright token under a 30-unit sight limit. -/
def out120Limit : SightOutput := okD (initializeSight tok120 dStd tf30 sfNone wsStd)

/-- Output with raw dim sight 3. -/
def outDim3 : SightOutput :=
  okD (initializeSight { tokZero with dimSight := 3 } dStd tfCustomDim sfNone wsStd)

/-- Output with raw dim sight 5. -/
def outDim5 : SightOutput :=
  okD (initializeSight { tokZero with dimSight := 5 } dStd tfCustomDim sfNone wsStd)

/-- Output for the negative (unlimited) dim-sight token under custom rules. -/
def outNegCustom : SightOutput := okD (initializeSight tokNeg dStd tfCustomDim sfNone wsStd)

/-- Output for the zero-sight token under custom rules. -/
def outZeroCustom : SightOutput := okD (initializeSight tokZero dStd tfCustomDim sfNone wsStd)

/-- A degenerate canvas for the `computeFov` witnesses. -/
def d3 : CanvasDims := ⟨0, 0⟩

/-- A source at the origin with own radius 1 and a one-vertex LOS polygon. -/
def s3 : FovSource := ⟨0, 0, 1, [⟨3, 4⟩]⟩

/-- A source whose single LOS vertex coincides with the origin. -/
def s4 : FovSource := ⟨0, 0, 1, [⟨0, 0⟩]⟩

/-! ### Helper lemmas about the resolver -/

lemma jsMin_eq (a b : ℚ) : jsMin a b = min a b := by
  unfold jsMin
  split_ifs with h
  · exact (min_eq_left h).symm
  · exact (min_eq_right (le_of_not_le h)).symm

lemma jsMax_eq (a b : ℚ) : jsMax a b = max a b := by
  unfold jsMax
  split_ifs with h
  · exact (max_eq_right h).symm
  · exact (max_eq_left (le_of_not_le h)).symm

lemma jsAbs_eq (a : ℚ) : jsAbs a = |a| := by
  unfold jsAbs
  split_ifs with h
  · exact (abs_of_neg h).symm
  · exact (abs_of_nonneg (not_lt.mp h)).symm

lemma getLightRadius_zero (tok : TokenData) (d : SceneDims) :
    getLightRadius tok d 0 = 0 := by
  simp [getLightRadius]

lemma getLightRadius_nonneg (tok : TokenData) (d : SceneDims) (u : ℚ)
    (hd : 0 ≤ d.distance) (hs : 0 ≤ d.size) (hw : 0 ≤ tok.w) (hu : 0 ≤ u) :
    0 ≤ getLightRadius tok d u := by
  unfold getLightRadius
  by_cases h0 : u = 0
  · rw [if_pos h0]
  · rw [if_neg h0, if_neg (not_lt.mpr hu), mul_one, jsAbs_eq]
    have h1 : 0 ≤ |u| / d.distance := div_nonneg (abs_nonneg u) hd
    have h2 : 0 ≤ |u| / d.distance * d.size := mul_nonneg h1 hs
    linarith

lemma getLightRadius_mono (tok : TokenData) (d : SceneDims) {u v : ℚ}
    (hd : 0 ≤ d.distance) (hs : 0 ≤ d.size) (hw : 0 ≤ tok.w)
    (hu : 0 ≤ u) (huv : u ≤ v) :
    getLightRadius tok d u ≤ getLightRadius tok d v := by
  by_cases h0 : u = 0
  · rw [h0, getLightRadius_zero]
    exact getLightRadius_nonneg tok d v hd hs hw (le_trans hu huv)
  · have hupos : 0 < u := lt_of_le_of_ne hu (Ne.symm h0)
    have hvpos : 0 < v := lt_of_lt_of_le hupos huv
    unfold getLightRadius
    rw [if_neg h0, if_neg (ne_of_gt hvpos), if_neg (not_lt.mpr hu),
      if_neg (not_lt.mpr (le_of_lt hvpos)), mul_one, mul_one, jsAbs_eq, jsAbs_eq,
      abs_of_pos hupos, abs_of_pos hvpos]
    have hdiv : u / d.distance ≤ v / d.distance := by
      rcases eq_or_lt_of_le hd with hd0 | hd0
      · rw [← hd0]
        simp
      · exact (div_le_div_iff_of_pos_right hd0).mpr huv
    have := mul_le_mul_of_nonneg_right hdiv hs
    linarith

lemma minRadius_nonneg (tok : TokenData) (hw : 0 ≤ tok.w) (hh : 0 ≤ tok.h) :
    0 ≤ minRadius tok := by
  unfold minRadius
  rw [jsMin_eq]
  have h1 : 0 ≤ min tok.w tok.h := le_min hw hh
  linarith

lemma sgnOf_eq_one (tok : TokenData) (d : SceneDims)
    (hd : 0 ≤ d.distance) (hs : 0 ≤ d.size) (hw : 0 ≤ tok.w)
    (hds : 0 ≤ tok.dimSight) (hbs : 0 ≤ tok.brightSight) :
    sgnOf tok d = 1 := by
  unfold sgnOf
  rw [jsMin_eq, if_neg]
  exact not_lt.mpr (le_min
    (getLightRadius_nonneg tok d tok.dimSight hd hs hw hds)
    (getLightRadius_nonneg tok d tok.brightSight hd hs hw hbs))

lemma initializeSight_ok_elim {tok : TokenData} {d : SceneDims} {tf : TokenFlags}
    {sf : SceneFlags} {ws : WorldSettings} {o : SightOutput}
    (h : initializeSight tok d tf sf ws = Except.ok o) :
    ∃ r, resolveRules tf ws = Except.ok r ∧ o = initializeSightCore r tok d tf sf := by
  unfold initializeSight at h
  cases hr : resolveRules tf ws with
  | error e =>
    rw [hr] at h
    exact absurd h (by simp [Except.map])
  | ok r =>
    rw [hr] at h
    simp only [Except.map, Except.ok.injEq] at h
    exact ⟨r, rfl, h.symm⟩

lemma gateMono {c : Prop} [Decidable c] {a b : ℚ} (hab : a ≤ b) :
    (if c then a else (0 : ℚ)) ≤ if c then b else 0 := by
  split_ifs with h
  · exact hab
  · exact le_rfl

lemma dimFinal_zero (tok : TokenData) (d : SceneDims) (tf : TokenFlags) (sf : SceneFlags)
    (hw : 0 ≤ tok.w) (hh : 0 ≤ tok.h) (hmax : 0 ≤ d.maxR) (hds : tok.dimSight = 0) :
    dimFinal tok d tf sf = 0 := by
  have hc : dimClamped tok d = 0 := by
    unfold dimClamped
    rw [hds, getLightRadius_zero, jsAbs_eq, abs_zero, jsMin_eq]
    exact min_eq_left hmax
  unfold dimFinal
  cases hsl : sightLimitPxOf tok d tf sf with
  | none => exact hc
  | some sl =>
    have hsl0 : 0 ≤ sl := by
      unfold sightLimitPxOf at hsl
      cases hfl : sightLimitFlag tf sf with
      | none => rw [hfl] at hsl; exact absurd hsl (by simp [Option.map])
      | some L =>
        rw [hfl] at hsl
        simp only [Option.map, Option.some.injEq] at hsl
        rw [← hsl]
        exact le_trans (minRadius_nonneg tok hw hh) (le_max_right _ _)
    rw [hc]
    show jsMin 0 sl = 0
    rw [jsMin_eq]
    exact min_eq_left hsl0

lemma brightFinal_zero (tok : TokenData) (d : SceneDims) (tf : TokenFlags) (sf : SceneFlags)
    (hw : 0 ≤ tok.w) (hh : 0 ≤ tok.h) (hmax : 0 ≤ d.maxR) (hbs : tok.brightSight = 0) :
    brightFinal tok d tf sf = 0 := by
  have hc : brightClamped tok d = 0 := by
    unfold brightClamped
    rw [hbs, getLightRadius_zero, jsAbs_eq, abs_zero, jsMin_eq]
    exact min_eq_left hmax
  unfold brightFinal
  cases hsl : sightLimitPxOf tok d tf sf with
  | none => exact hc
  | some sl =>
    have hsl0 : 0 ≤ sl := by
      unfold sightLimitPxOf at hsl
      cases hfl : sightLimitFlag tf sf with
      | none => rw [hfl] at hsl; exact absurd hsl (by simp [Option.map])
      | some L =>
        rw [hfl] at hsl
        simp only [Option.map, Option.some.injEq] at hsl
        rw [← hsl]
        exact le_trans (minRadius_nonneg tok hw hh) (le_max_right _ _)
    rw [hc]
    show jsMin 0 sl = 0
    rw [jsMin_eq]
    exact min_eq_left hsl0

lemma zeroSightOut {tok : TokenData} {d : SceneDims} {tf : TokenFlags}
    {sf : SceneFlags} {ws : WorldSettings} {o : SightOutput}
    (hw : 0 ≤ tok.w) (hh : 0 ≤ tok.h) (hmax : 0 ≤ d.maxR)
    (hds : tok.dimSight = 0) (hbs : tok.brightSight = 0)
    (h : initializeSight tok d tf sf ws = Except.ok o) :
    o.dataDimPre = 0 ∧ o.dataBright = 0 ∧ o.dataDim = minRadius tok ∧
    o.visionRadius = 0 ∧ o.radius = 0 ∧ o.fovRadius = minRadius tok := by
  obtain ⟨r, hr, ho⟩ := initializeSight_ok_elim h
  subst ho
  simp only [initializeSightCore]
  have hdz : dimFinal tok d tf sf = 0 := dimFinal_zero tok d tf sf hw hh hmax hds
  have hbz : brightFinal tok d tf sf = 0 := brightFinal_zero tok d tf sf hw hh hmax hbs
  have hpre : dataDimPreOf r tok d tf sf = 0 := by
    unfold dataDimPreOf
    rw [hdz, hbz]
    simp [jsMax]
  have hbr : dataBrightOf r tok d tf sf = 0 := by
    unfold dataBrightOf
    rw [hdz, hbz]
    simp [jsMax]
  have hvr : visionRadiusOf r tok d tf sf = 0 := by
    unfold visionRadiusOf
    rw [hdz, hbz]
    simp [jsMax]
  have hrad : storedRadiusOf r tok d tf sf = 0 := by
    unfold storedRadiusOf
    rw [hpre, hbr]
    simp [jsMax, jsAbs]
  refine ⟨hpre, hbr, ?_, hvr, hrad, ?_⟩
  · unfold dataDimOf
    rw [if_pos ⟨hpre, hbr⟩]
  · rw [hvr, jsMax_eq]
    exact max_eq_right (minRadius_nonneg tok hw hh)

lemma minRadius_tokZero : minRadius tokZero = 50 := by
  norm_num [minRadius, jsMin, tokZero]

/-! ### Claim C1 -/

/-- Claim C1, counterexample: with both raw radii 0 (inside `[0, maxR]`) the
forcing of line 417 writes `data.dim = minR = 50` while the local
`visionRadius` of lines 391-398 is `0`, so `visionRadius` is NOT greater
than or equal to `max(data.dim, data.bright)` as the claim states. -/
theorem c1_cex :
    initializeSight tokZero dStd tfCustomDim sfNone wsStd = Except.ok outZeroCustom ∧
    ¬ max outZeroCustom.dataDim outZeroCustom.dataBright ≤ outZeroCustom.visionRadius := by
  have h : initializeSight tokZero dStd tfCustomDim sfNone wsStd = Except.ok outZeroCustom :=
    rfl
  obtain ⟨hp, h2, h1, h3, hrad, h4⟩ := zeroSightOut (by decide) (by decide) (by decide) rfl rfl h
  refine ⟨h, ?_⟩
  rw [h1, h2, h3, minRadius_tokZero]
  rw [max_eq_left (by norm_num : (0 : ℚ) ≤ 50)]
  norm_num

/-- Claim C1 (amended): for raw dim/bright sight values `≥ 0` (hence resolved
radii in `[0, maxR]`) and every assignment of the four vision-rule branches,
the local `visionRadius` dominates the dim/bright outputs as first written
(lines 382-389, before the minimum-radius forcing), and the FOV radius
`Math.max(visionRadius, minR)` the wrapper actually uses at line 425
dominates the outputs including the forcing of line 417. -/
theorem c1_amended (tok : TokenData) (d : SceneDims) (tf : TokenFlags)
    (sf : SceneFlags) (ws : WorldSettings) (o : SightOutput)
    (hd : 0 ≤ d.distance) (hs : 0 ≤ d.size) (hw : 0 ≤ tok.w)
    (hds : 0 ≤ tok.dimSight) (hbs : 0 ≤ tok.brightSight)
    (h : initializeSight tok d tf sf ws = Except.ok o) :
    max o.dataDimPre o.dataBright ≤ o.visionRadius ∧
    max o.dataDim o.dataBright ≤ o.fovRadius := by
  obtain ⟨r, hr, ho⟩ := initializeSight_ok_elim h
  subst ho
  simp only [initializeSightCore]
  have hsgn : sgnOf tok d = 1 := sgnOf_eq_one tok d hd hs hw hds hbs
  have hdimPre : dataDimPreOf r tok d tf sf ≤ visionRadiusOf r tok d tf sf := by
    unfold dataDimPreOf visionRadiusOf
    simp only [jsMax_eq]
    rw [hsgn, one_mul]
    apply max_le
    · exact le_max_of_le_left (le_max_of_le_left (le_max_of_le_left
        (le_max_of_le_left (le_max_right _ _))))
    · exact le_max_of_le_left (le_max_right _ _)
  have hbrightLe : dataBrightOf r tok d tf sf ≤ visionRadiusOf r tok d tf sf := by
    unfold dataBrightOf visionRadiusOf
    simp only [jsMax_eq]
    rw [hsgn, one_mul]
    apply max_le
    · exact le_max_of_le_left (le_max_of_le_left (le_max_of_le_left
        (le_max_right _ _)))
    · exact le_max_right _ _
  rw [jsMax_eq]
  refine ⟨max_le hdimPre hbrightLe, max_le ?_ (le_trans hbrightLe (le_max_left _ _))⟩
  unfold dataDimOf
  split_ifs with hforce
  · exact le_max_right _ _
  · exact le_trans hdimPre (le_max_left _ _)

/-- Claim C1, witness for the amended theorem: a 100x100px token with 60-unit
dim sight on the standard scene, custom rules. -/
theorem c1_witness :
    ((0 : ℚ) ≤ dStd.distance ∧ (0 : ℚ) ≤ dStd.size ∧ (0 : ℚ) ≤ tok60.w ∧
     (0 : ℚ) ≤ tok60.dimSight ∧ (0 : ℚ) ≤ tok60.brightSight ∧
     initializeSight tok60 dStd tfCustomDim sfNone wsStd = Except.ok out60Custom) ∧
    (max out60Custom.dataDimPre out60Custom.dataBright ≤ out60Custom.visionRadius ∧
     max out60Custom.dataDim out60Custom.dataBright ≤ out60Custom.fovRadius) :=
  ⟨⟨by decide, by decide, by decide, by decide, by decide, rfl⟩,
   c1_amended tok60 dStd tfCustomDim sfNone wsStd out60Custom
     (by decide) (by decide) (by decide) (by decide) (by decide) rfl⟩

/-! ### Claim C2 -/

/-- Claim C2, counterexample: for a 100x100px token with `dim = bright = 0`
under the `"fvtt"` preset, the resolver does force `data.dim` to
`minR = 50`, but the local `visionRadius` is `0`, not `minR`. -/
theorem c2_cex :
    initializeSight tokZero dStd tfFvtt sfNone wsStd = Except.ok outZeroFvtt ∧
    outZeroFvtt.dataDim = minRadius tokZero ∧
    outZeroFvtt.visionRadius ≠ minRadius tokZero := by
  have h : initializeSight tokZero dStd tfFvtt sfNone wsStd = Except.ok outZeroFvtt := rfl
  obtain ⟨hp, h2, h1, h3, hrad, h4⟩ := zeroSightOut (by decide) (by decide) (by decide) rfl rfl h
  refine ⟨h, h1, ?_⟩
  rw [h3, minRadius_tokZero]
  norm_num

/-- Claim C2 (amended): for a token whose raw dim and bright sight values are
both 0 (any rule set that resolves, in particular the `"fvtt"` preset), the
resolver forces the dim output to `minRadius` (half the token footprint); the
local `visionRadius` is 0, and the FOV radius `Math.max(visionRadius, minR)`
actually used for the vision polygon equals `minRadius`. -/
theorem c2_amended (tok : TokenData) (d : SceneDims) (tf : TokenFlags)
    (sf : SceneFlags) (ws : WorldSettings) (o : SightOutput)
    (hw : 0 ≤ tok.w) (hh : 0 ≤ tok.h) (hmax : 0 ≤ d.maxR)
    (hds : tok.dimSight = 0) (hbs : tok.brightSight = 0)
    (h : initializeSight tok d tf sf ws = Except.ok o) :
    o.dataDim = minRadius tok ∧ o.visionRadius = 0 ∧ o.fovRadius = minRadius tok := by
  obtain ⟨hp, h2, h1, h3, hrad, h4⟩ := zeroSightOut hw hh hmax hds hbs h
  exact ⟨h1, h3, h4⟩

/-- Claim C2, witness for the amended theorem: the zero-sight 100x100px token
under the `"fvtt"` preset; the forced dim output and the FOV radius both
equal `minRadius = 50` while `visionRadius = 0`. -/
theorem c2_witness :
    ((0 : ℚ) ≤ tokZero.w ∧ (0 : ℚ) ≤ tokZero.h ∧ (0 : ℚ) ≤ dStd.maxR ∧
     tokZero.dimSight = 0 ∧ tokZero.brightSight = 0 ∧
     initializeSight tokZero dStd tfFvtt sfNone wsStd = Except.ok outZeroFvtt) ∧
    (outZeroFvtt.dataDim = minRadius tokZero ∧ outZeroFvtt.visionRadius = 0 ∧
     outZeroFvtt.fovRadius = minRadius tokZero) :=
  ⟨⟨by decide, by decide, by decide, rfl, rfl, rfl⟩,
   c2_amended tokZero dStd tfFvtt sfNone wsStd outZeroFvtt
     (by decide) (by decide) (by decide) rfl rfl rfl⟩


/-! ### Claim C6 -/

/-- Claim C6: when a numeric `sightLimit` flag is present on the token or,
failing that, on the scene, the resolver converts it like a sight radius
(`getLightRadius` of its absolute value), clamps it to at least `minRadius`,
and clamps both the (already `maxR`-clamped) dim and bright radii to it. -/
theorem c6_sightLimit (tok : TokenData) (d : SceneDims) (tf : TokenFlags)
    (sf : SceneFlags) (ws : WorldSettings) (L : ℚ) (o : SightOutput)
    (hL : sightLimitFlag tf sf = some L)
    (h : initializeSight tok d tf sf ws = Except.ok o) :
    o.sightLimitPx = some (max (getLightRadius tok d |L|) (minRadius tok)) ∧
    o.dim = min (dimClamped tok d) (max (getLightRadius tok d |L|) (minRadius tok)) ∧
    o.bright = min (brightClamped tok d) (max (getLightRadius tok d |L|) (minRadius tok)) := by
  obtain ⟨r, hr, ho⟩ := initializeSight_ok_elim h
  subst ho
  simp only [initializeSightCore]
  have hpx : sightLimitPxOf tok d tf sf
      = some (jsMax (getLightRadius tok d (jsAbs L)) (minRadius tok)) := by
    unfold sightLimitPxOf
    rw [hL]
    rfl
  refine ⟨?_, ?_, ?_⟩
  · rw [hpx, jsMax_eq, jsAbs_eq]
  · unfold dimFinal
    rw [hpx]
    show jsMin (dimClamped tok d) (jsMax (getLightRadius tok d (jsAbs L)) (minRadius tok)) = _
    rw [jsMin_eq, jsMax_eq, jsAbs_eq]
  · unfold brightFinal
    rw [hpx]
    show jsMin (brightClamped tok d) (jsMax (getLightRadius tok d (jsAbs L)) (minRadius tok)) = _
    rw [jsMin_eq, jsMax_eq, jsAbs_eq]

/-- Claim C6, witness: a 30-unit token `sightLimit` flag on a token whose
bright radius would be the 120-unit-derived 2450px caps both radii to the
30-unit-derived pixel value 650. -/
theorem c6_witness :
    (sightLimitFlag tf30 sfNone = some 30 ∧
     initializeSight tok120 dStd tf30 sfNone wsStd = Except.ok out120Limit) ∧
    (out120Limit.sightLimitPx =
       some (max (getLightRadius tok120 dStd |(30 : ℚ)|) (minRadius tok120)) ∧
     out120Limit.dim =
       min (dimClamped tok120 dStd)
         (max (getLightRadius tok120 dStd |(30 : ℚ)|) (minRadius tok120)) ∧
     out120Limit.bright =
       min (brightClamped tok120 dStd)
         (max (getLightRadius tok120 dStd |(30 : ℚ)|) (minRadius tok120))) ∧
    out120Limit.bright = 650 := by
  refine ⟨⟨rfl, rfl⟩,
    c6_sightLimit tok120 dStd tf30 sfNone wsStd 30 out120Limit rfl rfl, ?_⟩
  show brightFinal tok120 dStd tf30 sfNone = 650
  norm_num [brightFinal, brightClamped, sightLimitPxOf, sightLimitFlag, getLightRadius,
    minRadius, jsMin, jsMax, jsAbs, tok120, dStd, tf30, sfNone]

/-! ### Claim C7 -/

/-- Claim C7, counterexample: raising the raw dim sight value from `-5`
(the historical "unlimited vision" encoding) to `0`, all else fixed, drops
`visionRadius` from 150 to 0, so `visionRadius` is not monotone in the raw
value. -/
theorem c7_cex :
    tokNeg.dimSight < tokZero.dimSight ∧
    tokNeg.w = tokZero.w ∧ tokNeg.h = tokZero.h ∧
    tokNeg.brightSight = tokZero.brightSight ∧
    initializeSight tokNeg dStd tfCustomDim sfNone wsStd = Except.ok outNegCustom ∧
    initializeSight tokZero dStd tfCustomDim sfNone wsStd = Except.ok outZeroCustom ∧
    outZeroCustom.visionRadius < outNegCustom.visionRadius := by
  have hz : initializeSight tokZero dStd tfCustomDim sfNone wsStd = Except.ok outZeroCustom :=
    rfl
  obtain ⟨hp, hb2, hd2, hvz, hrad, hfov⟩ :=
    zeroSightOut (by decide) (by decide) (by decide) rfl rfl hz
  refine ⟨by decide, rfl, rfl, rfl, rfl, hz, ?_⟩
  have hn : outNegCustom.visionRadius = 150 := by
    show visionRadiusOf ⟨tagDim, tagDim, tagDarkness, tagDim⟩ tokNeg dStd tfCustomDim sfNone
      = 150
    simp [visionRadiusOf, dimFinal, dimClamped, brightFinal, brightClamped,
      sightLimitPxOf, sightLimitFlag, getLightRadius, minRadius, jsMin, jsMax, jsAbs,
      tokNeg, dStd, tfCustomDim, sfNone, tagDim, tagDimMono, tagBright, tagBrightMono,
      tagScene, tagSceneMono, tagDarkness]
    norm_num
  rw [hvz, hn]
  norm_num

lemma dimClamped_update_mono (tok : TokenData) (d : SceneDims) {u v : ℚ}
    (hd : 0 ≤ d.distance) (hs : 0 ≤ d.size) (hw : 0 ≤ tok.w)
    (hu : 0 ≤ u) (huv : u ≤ v) :
    dimClamped { tok with dimSight := u } d ≤ dimClamped { tok with dimSight := v } d := by
  show jsMin (jsAbs (getLightRadius tok d u)) d.maxR ≤
    jsMin (jsAbs (getLightRadius tok d v)) d.maxR
  simp only [jsMin_eq, jsAbs_eq]
  rw [abs_of_nonneg (getLightRadius_nonneg tok d u hd hs hw hu),
    abs_of_nonneg (getLightRadius_nonneg tok d v hd hs hw (le_trans hu huv))]
  exact min_le_min (getLightRadius_mono tok d hd hs hw hu huv) le_rfl

lemma brightClamped_update_mono (tok : TokenData) (d : SceneDims) {u v : ℚ}
    (hd : 0 ≤ d.distance) (hs : 0 ≤ d.size) (hw : 0 ≤ tok.w)
    (hu : 0 ≤ u) (huv : u ≤ v) :
    brightClamped { tok with brightSight := u } d ≤
      brightClamped { tok with brightSight := v } d := by
  show jsMin (jsAbs (getLightRadius tok d u)) d.maxR ≤
    jsMin (jsAbs (getLightRadius tok d v)) d.maxR
  simp only [jsMin_eq, jsAbs_eq]
  rw [abs_of_nonneg (getLightRadius_nonneg tok d u hd hs hw hu),
    abs_of_nonneg (getLightRadius_nonneg tok d v hd hs hw (le_trans hu huv))]
  exact min_le_min (getLightRadius_mono tok d hd hs hw hu huv) le_rfl

lemma dimFinal_update_mono (tok : TokenData) (d : SceneDims) (tf : TokenFlags)
    (sf : SceneFlags) {u v : ℚ}
    (hd : 0 ≤ d.distance) (hs : 0 ≤ d.size) (hw : 0 ≤ tok.w)
    (hu : 0 ≤ u) (huv : u ≤ v) :
    dimFinal { tok with dimSight := u } d tf sf ≤
      dimFinal { tok with dimSight := v } d tf sf := by
  have hpx : sightLimitPxOf { tok with dimSight := u } d tf sf
      = sightLimitPxOf { tok with dimSight := v } d tf sf := rfl
  unfold dimFinal
  rw [hpx]
  cases hsl : sightLimitPxOf { tok with dimSight := v } d tf sf with
  | none => exact dimClamped_update_mono tok d hd hs hw hu huv
  | some sl =>
    show jsMin (dimClamped { tok with dimSight := u } d) sl ≤
      jsMin (dimClamped { tok with dimSight := v } d) sl
    simp only [jsMin_eq]
    exact min_le_min (dimClamped_update_mono tok d hd hs hw hu huv) le_rfl

lemma brightFinal_update_mono (tok : TokenData) (d : SceneDims) (tf : TokenFlags)
    (sf : SceneFlags) {u v : ℚ}
    (hd : 0 ≤ d.distance) (hs : 0 ≤ d.size) (hw : 0 ≤ tok.w)
    (hu : 0 ≤ u) (huv : u ≤ v) :
    brightFinal { tok with brightSight := u } d tf sf ≤
      brightFinal { tok with brightSight := v } d tf sf := by
  have hpx : sightLimitPxOf { tok with brightSight := u } d tf sf
      = sightLimitPxOf { tok with brightSight := v } d tf sf := rfl
  unfold brightFinal
  rw [hpx]
  cases hsl : sightLimitPxOf { tok with brightSight := v } d tf sf with
  | none => exact brightClamped_update_mono tok d hd hs hw hu huv
  | some sl =>
    show jsMin (brightClamped { tok with brightSight := u } d) sl ≤
      jsMin (brightClamped { tok with brightSight := v } d) sl
    simp only [jsMin_eq]
    exact min_le_min (brightClamped_update_mono tok d hd hs hw hu huv) le_rfl

lemma visionRadiusOf_dim_mono (r : RuleSet) (tok : TokenData) (d : SceneDims)
    (tf : TokenFlags) (sf : SceneFlags) {u v : ℚ}
    (hd : 0 ≤ d.distance) (hs : 0 ≤ d.size) (hw : 0 ≤ tok.w)
    (hu : 0 ≤ u) (huv : u ≤ v) :
    visionRadiusOf r { tok with dimSight := u } d tf sf ≤
      visionRadiusOf r { tok with dimSight := v } d tf sf := by
  have hb : brightFinal { tok with dimSight := u } d tf sf
      = brightFinal { tok with dimSight := v } d tf sf := rfl
  have hdm := dimFinal_update_mono tok d tf sf hd hs hw hu huv
  unfold visionRadiusOf
  simp only [jsMax_eq]
  rw [hb]
  exact max_le_max (max_le_max (max_le_max (max_le_max (max_le_max
    (gateMono hdm) (gateMono hdm)) (gateMono hdm)) le_rfl) le_rfl) le_rfl

lemma visionRadiusOf_bright_mono (r : RuleSet) (tok : TokenData) (d : SceneDims)
    (tf : TokenFlags) (sf : SceneFlags) {u v : ℚ}
    (hd : 0 ≤ d.distance) (hs : 0 ≤ d.size) (hw : 0 ≤ tok.w)
    (hu : 0 ≤ u) (huv : u ≤ v) :
    visionRadiusOf r { tok with brightSight := u } d tf sf ≤
      visionRadiusOf r { tok with brightSight := v } d tf sf := by
  have hb : dimFinal { tok with brightSight := u } d tf sf
      = dimFinal { tok with brightSight := v } d tf sf := rfl
  have hbm := brightFinal_update_mono tok d tf sf hd hs hw hu huv
  unfold visionRadiusOf
  simp only [jsMax_eq]
  rw [hb]
  exact max_le_max (max_le_max (max_le_max (max_le_max (max_le_max
    le_rfl le_rfl) le_rfl) (gateMono hbm)) (gateMono hbm)) (gateMono hbm)

/-- Claim C7 (amended): with nonnegative scene constants, increasing a
token's raw dim or bright sight value within the NONNEGATIVE range (all else
fixed) never decreases `visionRadius`.  (For the historical negative
"unlimited" encoding the claim fails, see the counterexample.) -/
theorem c7_amended (tok : TokenData) (d : SceneDims) (tf : TokenFlags)
    (sf : SceneFlags) (ws : WorldSettings) (u v : ℚ) (oU oV : SightOutput)
    (hd : 0 ≤ d.distance) (hs : 0 ≤ d.size) (hw : 0 ≤ tok.w)
    (hu : 0 ≤ u) (huv : u ≤ v) :
    (initializeSight { tok with dimSight := u } d tf sf ws = Except.ok oU →
     initializeSight { tok with dimSight := v } d tf sf ws = Except.ok oV →
     oU.visionRadius ≤ oV.visionRadius) ∧
    (initializeSight { tok with brightSight := u } d tf sf ws = Except.ok oU →
     initializeSight { tok with brightSight := v } d tf sf ws = Except.ok oV →
     oU.visionRadius ≤ oV.visionRadius) := by
  constructor
  · intro hU hV
    obtain ⟨rU, hrU, hoU⟩ := initializeSight_ok_elim hU
    obtain ⟨rV, hrV, hoV⟩ := initializeSight_ok_elim hV
    rw [hrU] at hrV
    have hrr : rU = rV := Except.ok.inj hrV
    subst hoU
    subst hoV
    subst hrr
    exact visionRadiusOf_dim_mono rU tok d tf sf hd hs hw hu huv
  · intro hU hV
    obtain ⟨rU, hrU, hoU⟩ := initializeSight_ok_elim hU
    obtain ⟨rV, hrV, hoV⟩ := initializeSight_ok_elim hV
    rw [hrU] at hrV
    have hrr : rU = rV := Except.ok.inj hrV
    subst hoU
    subst hoV
    subst hrr
    exact visionRadiusOf_bright_mono rU tok d tf sf hd hs hw hu huv

/-- Claim C7, witness for the amended theorem: raising dim sight from 3 to 5
units on the standard scene does not decrease `visionRadius`. -/
theorem c7_witness :
    ((0 : ℚ) ≤ dStd.distance ∧ (0 : ℚ) ≤ dStd.size ∧ (0 : ℚ) ≤ tokZero.w ∧
     (0 : ℚ) ≤ (3 : ℚ) ∧ (3 : ℚ) ≤ (5 : ℚ) ∧
     initializeSight { tokZero with dimSight := (3 : ℚ) } dStd tfCustomDim sfNone wsStd
       = Except.ok outDim3 ∧
     initializeSight { tokZero with dimSight := (5 : ℚ) } dStd tfCustomDim sfNone wsStd
       = Except.ok outDim5) ∧
    outDim3.visionRadius ≤ outDim5.visionRadius :=
  ⟨⟨by decide, by decide, by decide, by decide, by decide, rfl, rfl⟩,
   (c7_amended tokZero dStd tfCustomDim sfNone wsStd 3 5 outDim3 outDim5
     (by decide) (by decide) (by decide) (by decide) (by decide)).1 rfl rfl⟩

/-! ### Claim C8 -/

lemma isOkE_map {ε α β : Type} (f : α → β) (e : Except ε α) :
    isOkE (e.map f) = isOkE e := by
  cases e <;> rfl

/-- Claim C8, counterexample: a token vision-rules flag value that names no
preset (`"bogus"`) makes the preset lookup read a property of `undefined`,
so the resolver raises a `TypeError` to its caller rather than treating the
value as `"custom"`. -/
theorem c8_cex :
    initializeSight tokZero dStd tfBogus sfNone wsStd = Except.error presetUndefinedError ∧
    isOkE (initializeSight tokZero dStd tfBogus sfNone wsStd) = false :=
  ⟨rfl, rfl⟩

/-- Claim C8 (amended): the resolver completes without raising exactly for
vision-rules values that resolve (token flag, falling back to the world
setting) to `"custom"` or to a key of the preset table; any other explicit
flag value fails the preset lookup with a `TypeError`. -/
theorem c8_amended (tok : TokenData) (d : SceneDims) (tf : TokenFlags)
    (sf : SceneFlags) (ws : WorldSettings)
    (h : resolvedRuleName tf ws = nameCustom ∨
      (presets (resolvedRuleName tf ws)).isSome = true) :
    isOkE (initializeSight tok d tf sf ws) = true := by
  have hlp : isOkE (initializeSight tok d tf sf ws) = isOkE (lookupPresetRules tf ws) := by
    unfold initializeSight resolveRules
    rw [isOkE_map, isOkE_map]
  rw [hlp]
  simp only [resolvedRuleName] at h
  simp only [lookupPresetRules]
  by_cases h1 : jsOrS tf.visionRules nameDefault = nameCustom
  · rw [if_pos h1]
    rfl
  · rw [if_neg h1] at h ⊢
    by_cases h2 :
        (if jsOrS tf.visionRules nameDefault = nameDefault then ws.visionRules
          else jsOrS tf.visionRules nameDefault) = nameCustom
    · rw [if_pos h2]
      rfl
    · rw [if_neg h2]
      rcases h with h | h
      · exact absurd h h2
      · obtain ⟨p, hp⟩ := Option.isSome_iff_exists.mp h
        rw [hp]
        rfl

/-- Claim C8, witness for the amended theorem: with no token flag the name
falls back to the world setting `"fvtt"`, a preset-table key, and the
resolver completes. -/
theorem c8_witness :
    (resolvedRuleName tfNone wsStd = nameCustom ∨
      (presets (resolvedRuleName tfNone wsStd)).isSome = true) ∧
    isOkE (initializeSight tokZero dStd tfNone sfNone wsStd) = true :=
  ⟨by decide, c8_amended tokZero dStd tfNone sfNone wsStd (by decide)⟩

/-! ### Claim C9 -/

/-- Claim C9, counterexample: with a zero grid size (and nonzero scene unit
distance) `getLightRadius` of a nonzero sight value returns the token
half-width (here 1), not zero — the only zero-guard in the function is
`units === 0`. -/
theorem c9_cex :
    d9.size = 0 ∧ getLightRadius tok9 d9 5 ≠ 0 := by
  refine ⟨rfl, ?_⟩
  norm_num [getLightRadius, jsAbs, tok9, d9]

/-- Claim C9 (amended): `getLightRadius` returns zero exactly when its
`units` argument is zero; a zero grid size makes it return the signed token
half-width, not zero, and a zero scene unit distance is not guarded at all
(in JS it produces an infinite radius; the `d.distance ≠ 0` hypothesis keeps
the rational model aligned with the JS behaviour). -/
theorem c9_amended (tok : TokenData) (d : SceneDims) (u : ℚ) :
    (u = 0 → getLightRadius tok d u = 0) ∧
    (d.size = 0 → d.distance ≠ 0 → u ≠ 0 →
      getLightRadius tok d u = tok.w / 2 * (if u < 0 then -1 else 1)) := by
  constructor
  · intro h0
    rw [h0]
    exact getLightRadius_zero tok d
  · intro hs hd hu
    unfold getLightRadius
    rw [if_neg hu, hs, mul_zero, zero_add]

/-- Claim C9, witness for the amended theorem: evaluated at `units = 0` and
at `units = 5` on the zero-grid-size scene. -/
theorem c9_witness :
    ((0 : ℚ) = 0 ∧ getLightRadius tok9 d9 0 = 0) ∧
    (d9.size = 0 ∧ d9.distance ≠ 0 ∧ (5 : ℚ) ≠ 0 ∧
     getLightRadius tok9 d9 5 = tok9.w / 2 * (if (5 : ℚ) < 0 then -1 else 1)) :=
  ⟨⟨rfl, (c9_amended tok9 d9 0).1 rfl⟩,
   ⟨rfl, by decide, by decide, (c9_amended tok9 d9 5).2 rfl (by decide) (by decide)⟩⟩

/-! ### Claim C10 -/

/-- Claim C10: the stored source radius (`this_.radius`, line 415) is the
maximum of the absolute dim/bright outputs BEFORE the minimum-radius forcing
of line 417; hence when both resolved outputs are zero the stored radius is
0 and the vision mesh is hidden (`c.light.visible = sight && radius > 0`,
line 521), even though the dim value passed to the host is `minRadius`. -/
theorem c10_meshHidden (tok : TokenData) (d : SceneDims) (tf : TokenFlags)
    (sf : SceneFlags) (ws : WorldSettings) (o : SightOutput) (s : Bool)
    (h : initializeSight tok d tf sf ws = Except.ok o) :
    o.radius = max |o.dataDimPre| |o.dataBright| ∧
    (o.dataDimPre = 0 → o.dataBright = 0 →
      o.radius = 0 ∧ visionMeshVisible s o.radius = false ∧
      o.dataDim = minRadius tok) := by
  obtain ⟨r, hr, ho⟩ := initializeSight_ok_elim h
  subst ho
  simp only [initializeSightCore]
  constructor
  · unfold storedRadiusOf
    rw [jsMax_eq, jsAbs_eq, jsAbs_eq]
  · intro h1 h2
    have hrad : storedRadiusOf r tok d tf sf = 0 := by
      unfold storedRadiusOf
      rw [h1, h2]
      simp [jsMax, jsAbs]
    refine ⟨hrad, ?_, ?_⟩
    · rw [hrad]
      norm_num [visionMeshVisible]
    · unfold dataDimOf
      rw [if_pos ⟨h1, h2⟩]

/-- Claim C10, witness: the zero-sight token; the stored radius is 0, the
mesh is hidden even with sight enabled, and the host still receives
`data.dim = minRadius`. -/
theorem c10_witness :
    initializeSight tokZero dStd tfCustomDim sfNone wsStd = Except.ok outZeroCustom ∧
    outZeroCustom.dataDimPre = 0 ∧ outZeroCustom.dataBright = 0 ∧
    (outZeroCustom.radius = 0 ∧
     visionMeshVisible true outZeroCustom.radius = false ∧
     outZeroCustom.dataDim = minRadius tokZero) := by
  have h : initializeSight tokZero dStd tfCustomDim sfNone wsStd = Except.ok outZeroCustom :=
    rfl
  obtain ⟨hpre, hbr, hdat, hvr, hrad, hfov⟩ :=
    zeroSightOut (by decide) (by decide) (by decide) rfl rfl h
  exact ⟨h, hpre, hbr,
    (c10_meshHidden tokZero dStd tfCustomDim sfNone wsStd outZeroCustom true h).2 hpre hbr⟩

/-! ### Helper lemmas about computeFov -/

lemma computeFov_of_hit (d : CanvasDims) (s : FovSource) (radius : ℝ)
    (cache : Option FovCache) (fov : List Pt)
    (h : cacheLookup cache radius = some fov) :
    computeFov d s radius cache = (fov, cache) := by
  unfold computeFov
  rw [h]

lemma computeFov_miss_eq (d : CanvasDims) (s : FovSource) (radius : ℝ)
    (cache : Option FovCache) (h : cacheLookup cache radius = none) :
    computeFov d s radius cache =
      if 0 < radius then
        (clipPoints s radius (cacheDist d s cache),
         cacheStore (cacheSetDist cache (cacheDist d s cache)) radius
           (clipPoints s radius (cacheDist d s cache)))
      else (([] : List Pt), cacheStore cache radius ([] : List Pt)) := by
  unfold computeFov
  rw [h]

lemma cacheLookup_store (cc : FovCache) (r : ℝ) (fov : List Pt) :
    cacheLookup (cacheStore (some cc) r fov) r = some fov := by
  show (if r = r then some fov else cc.entries r) = some fov
  rw [if_pos rfl]

lemma clipPoints_id (s : FovSource) (radius dist : ℝ)
    (hpos : 0 < dist) (hle : dist ≤ radius) :
    clipPoints s radius dist = s.losPoints := by
  unfold clipPoints
  have hlim : clampedR (radius / dist) 0 1 = 1 := by
    unfold clampedR
    have h1 : (1 : ℝ) ≤ radius / dist := (one_le_div hpos).mpr hle
    rw [max_eq_left (le_trans zero_le_one h1)]
    exact min_eq_right h1
  rw [hlim]
  have hpt : ∀ p ∈ s.losPoints, clipPoint s 1 dist p = p := by
    intro p _
    show (if clampedR (rayDistance ⟨s.x, s.y⟩ p / dist) 0 1 ≤ 1 then p
      else rayProject ⟨s.x, s.y⟩ p
        (1 / clampedR (rayDistance ⟨s.x, s.y⟩ p / dist) 0 1)) = p
    have hb : clampedR (rayDistance ⟨s.x, s.y⟩ p / dist) 0 1 ≤ 1 := min_le_right _ _
    rw [if_pos hb]
  exact (List.map_congr_left hpt).trans (List.map_id _)

lemma distSq_nonneg (a b : Pt) : 0 ≤ distSq a b := by
  unfold distSq
  positivity

lemma clampedR_nonneg (x b : ℝ) (hb : 0 ≤ b) : 0 ≤ clampedR x 0 b :=
  le_min (le_max_right x 0) hb

lemma clipPoint_distSq_le (s : FovSource) (limit dist : ℝ) (hl : 0 ≤ limit) (p : Pt) :
    distSq ⟨s.x, s.y⟩ (clipPoint s limit dist p) ≤ distSq ⟨s.x, s.y⟩ p := by
  show distSq ⟨s.x, s.y⟩
      (if clampedR (rayDistance ⟨s.x, s.y⟩ p / dist) 0 1 ≤ limit then p
       else rayProject ⟨s.x, s.y⟩ p
         (limit / clampedR (rayDistance ⟨s.x, s.y⟩ p / dist) 0 1)) ≤
    distSq ⟨s.x, s.y⟩ p
  set t0 := clampedR (rayDistance ⟨s.x, s.y⟩ p / dist) 0 1 with ht0
  split_ifs with h
  · exact le_rfl
  · push_neg at h
    have ht0pos : 0 < t0 := lt_of_le_of_lt hl h
    have htle : limit / t0 < 1 := (div_lt_one ht0pos).mpr h
    have htnn : 0 ≤ limit / t0 := div_nonneg hl (le_of_lt ht0pos)
    have hexp : distSq ⟨s.x, s.y⟩ (rayProject ⟨s.x, s.y⟩ p (limit / t0))
        = (limit / t0) ^ 2 * distSq ⟨s.x, s.y⟩ p := by
      unfold distSq rayProject
      ring
    rw [hexp]
    have ht2 : (limit / t0) ^ 2 ≤ 1 := pow_le_one₀ htnn (le_of_lt htle)
    have hD := distSq_nonneg (⟨s.x, s.y⟩ : Pt) p
    calc (limit / t0) ^ 2 * distSq ⟨s.x, s.y⟩ p
        ≤ 1 * distSq ⟨s.x, s.y⟩ p := mul_le_mul_of_nonneg_right ht2 hD
      _ = distSq ⟨s.x, s.y⟩ p := one_mul _

lemma mem_zip_map {α β : Type} (f : α → β) (l : List α) :
    ∀ pq ∈ (l.map f).zip l, pq.1 = f pq.2 := by
  induction l with
  | nil =>
    intro pq h
    simp at h
  | cons a t ih =>
    intro pq h
    rw [List.map_cons, List.zip_cons_cons] at h
    rcases List.mem_cons.mp h with h1 | h2
    · rw [h1]
    · exact ih pq h2

/-! ### Claim C3 -/

/-- Claim C3: on a cache miss, `computeFov` returns the empty polygon for
radius 0; and for a radius at least the (memoized) `distance` bound, the
returned polygon's vertices are exactly the unlimited LOS vertices,
unchanged. -/
theorem c3_computeFov (d : CanvasDims) (s : FovSource) (cache : Option FovCache) :
    (cacheLookup cache 0 = none → (computeFov d s 0 cache).1 = []) ∧
    (∀ radius : ℝ, cacheLookup cache radius = none →
      0 < cacheDist d s cache → cacheDist d s cache ≤ radius →
      (computeFov d s radius cache).1 = s.losPoints) := by
  constructor
  · intro h
    rw [computeFov_miss_eq d s 0 cache h, if_neg (lt_irrefl (0 : ℝ))]
  · intro radius h hpos hle
    have hr : 0 < radius := lt_of_lt_of_le hpos hle
    rw [computeFov_miss_eq d s radius cache h, if_pos hr]
    exact clipPoints_id s radius (cacheDist d s cache) hpos hle

/-- Claim C3, witness: a source with own radius 1 on a degenerate 0x0 canvas
(distance bound 1) and LOS vertex `(3, 4)`: radius 0 yields no points and
radius `1 ≥ distance` returns the LOS polygon unchanged. -/
theorem c3_witness :
    (cacheLookup (none : Option FovCache) 0 = none ∧
     0 < cacheDist d3 s3 none ∧ cacheDist d3 s3 none ≤ 1) ∧
    ((computeFov d3 s3 0 none).1 = [] ∧
     (computeFov d3 s3 1 none).1 = s3.losPoints) := by
  have hdist : cacheDist d3 s3 none = 1 := by
    show farCorner d3 s3 = 1
    unfold farCorner
    simp [d3, s3]
  refine ⟨⟨rfl, ?_, ?_⟩, (c3_computeFov d3 s3 none).1 rfl,
    (c3_computeFov d3 s3 none).2 1 rfl ?_ ?_⟩ <;> rw [hdist] <;> norm_num

/-! ### Claim C4 -/

/-- Claim C4: on a cache miss every vertex of the polygon `computeFov`
returns is no farther (in squared distance) from the source origin than the
corresponding vertex of the unlimited LOS polygon: a vertex is either kept
(when its distance fraction is at most `limit`) or projected inward along
its ray from the origin. -/
theorem c4_subset (d : CanvasDims) (s : FovSource) (radius : ℝ)
    (cache : Option FovCache) (h : cacheLookup cache radius = none) :
    ∀ pq ∈ ((computeFov d s radius cache).1).zip s.losPoints,
      distSq ⟨s.x, s.y⟩ pq.1 ≤ distSq ⟨s.x, s.y⟩ pq.2 := by
  intro pq hm
  rw [computeFov_miss_eq d s radius cache h] at hm
  by_cases hr : 0 < radius
  · rw [if_pos hr] at hm
    have h1 := mem_zip_map
      (clipPoint s (clampedR (radius / cacheDist d s cache) 0 1) (cacheDist d s cache))
      s.losPoints pq hm
    rw [h1]
    exact clipPoint_distSq_le s _ _ (clampedR_nonneg _ _ zero_le_one) pq.2
  · rw [if_neg hr] at hm
    simp at hm

/-- Claim C4, witness: a one-vertex LOS polygon whose vertex is kept; the
returned vertex is no farther from the origin than the original. -/
theorem c4_witness :
    cacheLookup (none : Option FovCache) 1 = none ∧
    ((⟨0, 0⟩, ⟨0, 0⟩) : Pt × Pt) ∈ ((computeFov d3 s4 1 none).1.zip s4.losPoints) ∧
    distSq ⟨s4.x, s4.y⟩ ((⟨0, 0⟩, ⟨0, 0⟩) : Pt × Pt).1 ≤
      distSq ⟨s4.x, s4.y⟩ ((⟨0, 0⟩, ⟨0, 0⟩) : Pt × Pt).2 := by
  have hdist : cacheDist d3 s4 none = 1 := by
    show farCorner d3 s4 = 1
    unfold farCorner
    simp [d3, s4]
  have hcl : clipPoints s4 1 (cacheDist d3 s4 none) = s4.losPoints := by
    rw [hdist]
    exact clipPoints_id s4 1 1 one_pos le_rfl
  have hmem : ((⟨0, 0⟩, ⟨0, 0⟩) : Pt × Pt) ∈
      ((computeFov d3 s4 1 none).1.zip s4.losPoints) := by
    rw [computeFov_miss_eq d3 s4 1 none rfl, if_pos one_pos]
    show ((⟨0, 0⟩, ⟨0, 0⟩) : Pt × Pt) ∈
      ((clipPoints s4 1 (cacheDist d3 s4 none)).zip s4.losPoints)
    rw [hcl]
    simp [s4]
  exact ⟨rfl, hmem, c4_subset d3 s4 1 none rfl _ hmem⟩

/-! ### Claim C5 -/

/-- Claim C5: calling `computeFov` a second time with the same source and
radius on the cache left by the first call returns exactly the first call's
polygon and leaves the cache unchanged (the second call is a pure cache
lookup). -/
theorem c5_memoized (d : CanvasDims) (s : FovSource) (radius : ℝ) (c : FovCache) :
    computeFov d s radius ((computeFov d s radius (some c)).2)
      = computeFov d s radius (some c) := by
  cases hl : cacheLookup (some c) radius with
  | some fov =>
    have h1 : computeFov d s radius (some c) = (fov, some c) :=
      computeFov_of_hit d s radius (some c) fov hl
    rw [h1]
    exact h1
  | none =>
    rw [computeFov_miss_eq d s radius (some c) hl]
    split_ifs with hr
    · exact computeFov_of_hit d s radius _ _
        (cacheLookup_store { c with distance := some (cacheDist d s (some c)) } radius
          (clipPoints s radius (cacheDist d s (some c))))
    · exact computeFov_of_hit d s radius _ _ (cacheLookup_store c radius [])

end PerfectVision
